import Mathlib

/-!
A shallow embedding of the PixelOS plugin's dynamic-module bridge:
the component `UPixelOSComponent` (files `PixelOSComponent.h/.cpp`) and the
host actor `AOSComputer` (files `OSComputer.h/.cpp`).

The component owns a dynamically loaded module handle (`FFIHandle`), five
resolved entry-point addresses (`pixelos_create`, `pixelos_destroy`,
`pixelos_step`, `pixelos_send_key`, `pixelos_get_framebuffer`), one opaque
VM instance pointer (`OSInstance`) and one display texture
(`OSDisplayTexture`).  The external world (filesystem, dynamic loader, and
the simulated machine behind the FFI boundary) is modelled by an oracle
`Env`.  Pointer-valued data is modelled as follows: the module handle is a
`Bool` (held / not held), each resolved entry point is a `Bool` (resolved
non-null / null), and the VM instance is an `Option Nat` where the `Nat` is
a fresh identifier minted per successful create call, so that distinct
created instances are distinguishable in traces.

Every call the component makes across the FFI / dynamic-library boundary is
recorded as an `FFIEvent`, so that ordering properties (destroy before
unload, no call without a live instance, ...) are statements about the
event trace of a run.

Calling a null function pointer is undefined behavior in the source; the
model records such a call attempt by setting the `nullCall` flag and emits
no event for it (the call never validly happens), then keeps executing.
Theorems that need well-defined behavior take resolution of the relevant
pointer as a hypothesis.
-/

namespace PixelOS

/-- Configuration passed to the create entry point.  In `PixelOSComponent.h`
the fields are 32-bit unsigned integers (the `height` field is spelled
`uint-32`, an evident typo for `uint32`).  The only value the component ever
builds is 1024 by 768, far below 2 to the 32, so plain naturals model the
fields exactly. -/
structure OSConfig where
  width : Nat
  height : Nat
deriving DecidableEq, Repr

/-- One observable call made by the component across the FFI boundary or to
the dynamic loader.  `create` records the configuration passed and the
returned instance (`none` for a null return); `getFramebuffer` records
whether the returned pointer was non-null; `freeDll` is the
`FPlatformProcess::FreeDllHandle` call that unloads the module. -/
inductive FFIEvent where
  | create (config : OSConfig) (ret : Option Nat)
  | destroy (h : Nat)
  | step (h : Nat)
  | sendKey (h : Nat) (keycode : Nat) (modifiers : Nat)
  | getFramebuffer (h : Nat) (gotData : Bool)
  | freeDll
deriving DecidableEq, Repr

/-- Oracle for everything outside the component: the filesystem probe, the
dynamic loader, symbol resolution, and the simulated machine itself.
`createOk n` says whether the n-th create call returns a non-null instance.
`framebuffer n` is the byte stream the get_framebuffer entry returns after
n total step calls (`none` models a null pointer return); a returned
pointer grants unchecked access to memory, so it is a total function from
offsets to bytes.  `fbValidLen n` is the actual allocated length of that
buffer; the C ABI does not transmit it and the component never reads it —
it exists only so that length-mismatch properties can be stated. -/
structure Env where
  fileExists : Bool
  dllLoadOk : Bool
  symCreate : Bool
  symDestroy : Bool
  symStep : Bool
  symSendKey : Bool
  symGetFramebuffer : Bool
  createOk : Nat → Bool
  framebuffer : Nat → Option (Nat → Nat)
  fbValidLen : Nat → Nat

/-- A transient 2D texture: the display surface.  `data` maps byte offsets
to byte values; the surface holds `width * height * 4` meaningful bytes
(PF_R8G8B8A8 is four bytes per pixel, row-major, no padding). -/
structure Texture where
  width : Nat
  height : Nat
  data : Nat → Nat

/-- Contents of a freshly created transient texture are unspecified in the
engine; modelled as all zero.  No claim depends on the initial bytes. -/
def newTexture (w h : Nat) : Texture :=
  { width := w, height := h, data := fun _ => 0 }

/-- The mutable state of `UPixelOSComponent`.  The first eight fields are
the component's members (pointers modelled as explained above).
`createCount` and `stepCount` are ghost instrumentation: they count the
create and step calls made so far, minting fresh instance identifiers and
indexing the framebuffer oracle; the component itself stores no such
counters.  `nullCall` is a ghost flag marking that a null function pointer
was invoked (undefined behavior in the source). -/
structure UPixelOSComponent where
  FFIHandle : Bool
  OSInstance : Option Nat
  OSDisplayTexture : Option Texture
  pixelos_create : Bool
  pixelos_destroy : Bool
  pixelos_step : Bool
  pixelos_send_key : Bool
  pixelos_get_framebuffer : Bool
  createCount : Nat
  stepCount : Nat
  nullCall : Bool

/-- State after the constructor.  Unreal zero-initializes UObject memory,
so the members the constructor does not mention (the five function
pointers) are null as well. -/
def initState : UPixelOSComponent :=
  { FFIHandle := false, OSInstance := none, OSDisplayTexture := none,
    pixelos_create := false, pixelos_destroy := false, pixelos_step := false,
    pixelos_send_key := false, pixelos_get_framebuffer := false,
    createCount := 0, stepCount := 0, nullCall := false }

/-- `UPixelOSComponent::LoadFFILibrary`: probe the fixed plugin path; if the
file exists, open the module; if the handle is non-null, resolve the five
exports (each lookup may return null — the code stores whatever comes back,
with no check).  On any failure the state is left as it was.  No FFI event
is emitted (no entry point is called during load). -/
def LoadFFILibrary (env : Env) (s : UPixelOSComponent) : UPixelOSComponent :=
  if env.fileExists then
    if env.dllLoadOk then
      { s with FFIHandle := true,
               pixelos_create := env.symCreate,
               pixelos_destroy := env.symDestroy,
               pixelos_step := env.symStep,
               pixelos_send_key := env.symSendKey,
               pixelos_get_framebuffer := env.symGetFramebuffer }
    else s
  else s

/-- `UPixelOSComponent::BootOS`: if the create pointer is non-null, build
the hardcoded config 1024 by 768, call create, store its result in
`OSInstance` (overwriting whatever was there), and allocate the display
texture unconditionally — also when create returned null.  The `OSName`
parameter is accepted and never used.  If the create pointer is null,
nothing happens at all. -/
def BootOS (OSName : String) (env : Env) (s : UPixelOSComponent) :
    UPixelOSComponent × List FFIEvent :=
  if s.pixelos_create then
    let config : OSConfig := { width := 1024, height := 768 }
    let ret : Option Nat :=
      if env.createOk s.createCount then some s.createCount else none
    ({ s with OSInstance := ret,
              OSDisplayTexture := some (newTexture config.width config.height),
              createCount := s.createCount + 1 },
     [FFIEvent.create config ret])
  else (s, [])

/-- `FMemory::Memcpy(TextureData, framebuffer, Mip.BulkData.GetBulkDataSize())`:
the copy transfers exactly `width * height * 4` bytes (the bulk-data size of
a PF_R8G8B8A8 mip) from the returned pointer; bytes of the surface past the
copied range keep their prior contents. -/
def copyFramebuffer (tex : Texture) (buf : Nat → Nat) : Texture :=
  { tex with
    data := fun i => if i < tex.width * tex.height * 4 then buf i else tex.data i }

/-- `UPixelOSComponent::UpdateTexture`: only when both the instance and the
texture are present, call get_framebuffer; if it returned data, lock the
mip and copy `GetBulkDataSize()` bytes; if it returned null, do nothing.
The get_framebuffer pointer is invoked without a null check. -/
def UpdateTexture (env : Env) (s : UPixelOSComponent) :
    UPixelOSComponent × List FFIEvent :=
  match s.OSInstance, s.OSDisplayTexture with
  | some h, some tex =>
    if s.pixelos_get_framebuffer then
      match env.framebuffer s.stepCount with
      | some buf =>
        ({ s with OSDisplayTexture := some (copyFramebuffer tex buf) },
         [FFIEvent.getFramebuffer h true])
      | none => (s, [FFIEvent.getFramebuffer h false])
    else ({ s with nullCall := true }, [])
  | _, _ => (s, [])

/-- `UPixelOSComponent::TickComponent`: if an instance is live, call step
(without a null check on the pointer) and then `UpdateTexture`; otherwise
do nothing.  The ghost `stepCount` advances with each step call so the
framebuffer oracle tracks the machine's progress. -/
def TickComponent (env : Env) (s : UPixelOSComponent) :
    UPixelOSComponent × List FFIEvent :=
  match s.OSInstance with
  | some h =>
    let r1 : UPixelOSComponent × List FFIEvent :=
      if s.pixelos_step then
        ({ s with stepCount := s.stepCount + 1 }, [FFIEvent.step h])
      else ({ s with nullCall := true }, [])
    let r2 := UpdateTexture env r1.1
    (r2.1, r1.2 ++ r2.2)
  | none => (s, [])

/-- `UPixelOSComponent::UnloadFFILibrary`: first, if an instance is live,
call destroy on it (without a null check on the pointer) and clear it;
second, if the module handle is held, free it and clear it.  Destroy is
thus emitted, if at all, strictly before `freeDll` within the call. -/
def UnloadFFILibrary (s : UPixelOSComponent) :
    UPixelOSComponent × List FFIEvent :=
  let r1 : UPixelOSComponent × List FFIEvent :=
    match s.OSInstance with
    | some h =>
      if s.pixelos_destroy then
        ({ s with OSInstance := none }, [FFIEvent.destroy h])
      else ({ s with OSInstance := none, nullCall := true }, [])
    | none => (s, [])
  if r1.1.FFIHandle then
    ({ r1.1 with FFIHandle := false }, r1.2 ++ [FFIEvent.freeDll])
  else (r1.1, r1.2)

/-- `UPixelOSComponent::BeginPlay`: loads the FFI library. -/
def BeginPlay (env : Env) (s : UPixelOSComponent) : UPixelOSComponent :=
  LoadFFILibrary env s

/-- `UPixelOSComponent::EndPlay`: unloads the FFI library (destroying the
live instance first, inside `UnloadFFILibrary`). -/
def EndPlay (s : UPixelOSComponent) : UPixelOSComponent × List FFIEvent :=
  UnloadFFILibrary s

/-- A host-driven action between `BeginPlay` and `EndPlay`: a Blueprint
call to `BootOS`, or one engine tick. -/
inductive HostAction where
  | bootOS (name : String)
  | tick

/-- Dispatch of one host action on the component. -/
def stepAction (env : Env) (s : UPixelOSComponent) :
    HostAction → UPixelOSComponent × List FFIEvent
  | HostAction.bootOS n => BootOS n env s
  | HostAction.tick => TickComponent env s

/-- Run a list of host actions, concatenating the emitted event traces. -/
def runActions (env : Env) :
    UPixelOSComponent → List HostAction → UPixelOSComponent × List FFIEvent
  | s, [] => (s, [])
  | s, a :: rest =>
    let r1 := stepAction env s a
    let r2 := runActions env r1.1 rest
    (r2.1, r1.2 ++ r2.2)

/-- A complete execution of the component's engine lifecycle: construction,
`BeginPlay`, an arbitrary sequence of host actions, `EndPlay`.  Returns the
final state and the full FFI event trace. -/
def runComponent (env : Env) (acts : List HostAction) :
    UPixelOSComponent × List FFIEvent :=
  let r1 := runActions env (BeginPlay env initState) acts
  let r2 := EndPlay r1.1
  (r2.1, r1.2 ++ r2.2)

/-- Whether an event is a destroy call. -/
def eventIsDestroy : FFIEvent → Bool
  | FFIEvent.destroy _ => true
  | _ => false

/-- Whether an event is the module unload. -/
def eventIsFree : FFIEvent → Bool
  | FFIEvent.freeDll => true
  | _ => false

/-- Holds of a trace in which no destroy call occurs after a module
unload. -/
def noDestroyAfterFreeB : List FFIEvent → Bool
  | [] => true
  | FFIEvent.freeDll :: rest => rest.all fun e => !eventIsDestroy e
  | _ :: rest => noDestroyAfterFreeB rest

/-- Holds of a trace containing no module unload. -/
def noFreeB (es : List FFIEvent) : Bool :=
  es.all fun e => !eventIsFree e

/-- The instances live after a trace: every identifier returned by a
successful create that no destroy call has been issued on. -/
def liveAfter (tr : List FFIEvent) : List Nat :=
  tr.foldl
    (fun acc e =>
      match e with
      | FFIEvent.create _ (some h) => acc ++ [h]
      | FFIEvent.destroy h => acc.erase h
      | _ => acc)
    []

/-- Error type of the spec's Input Forwarder. -/
inductive InputError where
  | NoActiveSession
deriving DecidableEq, Repr

/-- Modelled from the spec: the repository resolves the send_key entry
point (`PixelOSComponent.h` declares `pixelos_send_key_t` and
`LoadFFILibrary` resolves it) but contains no caller of it — the Input
Forwarder's forwarding function itself is missing from the source.  Per the
spec's words: forwarding a key event with no live handle is a no-op that
returns `NoActiveSession` and never invokes the underlying entry point;
with a live handle the entry point is invoked once with the key data. -/
def sendKeySpec (inst : Option Nat) (keycode modifiers : Nat) :
    Except InputError (List FFIEvent) :=
  match inst with
  | none => Except.error InputError.NoActiveSession
  | some h => Except.ok [FFIEvent.sendKey h keycode modifiers]

/-- State of the host actor `AOSComputer`: its OS component and whether the
screen material was rebound to the display texture. -/
structure AOSComputer where
  comp : UPixelOSComponent
  materialBound : Bool

/-- `AOSComputer::BeginPlay`: the engine first delivers `BeginPlay` to the
owned component (loading the library), then the actor body calls
`BootOS("PixelOS")` and, if `OSDisplayTexture` is non-null, creates a
dynamic material instance bound to it. -/
def AOSComputer_BeginPlay (env : Env) : AOSComputer × List FFIEvent :=
  let s1 := BeginPlay env initState
  let r2 := BootOS "PixelOS" env s1
  ({ comp := r2.1, materialBound := r2.1.OSDisplayTexture.isSome }, r2.2)

/-- An environment in which everything succeeds: the module file exists,
loads, all five symbols resolve, every create returns a fresh instance, and
the framebuffer is always available with the contractual length. -/
def envGood : Env :=
  { fileExists := true, dllLoadOk := true,
    symCreate := true, symDestroy := true, symStep := true,
    symSendKey := true, symGetFramebuffer := true,
    createOk := fun _ => true,
    framebuffer := fun _ => some (fun _ => 42),
    fbValidLen := fun _ => 1024 * 768 * 4 }

/-- Like `envGood`, but get_framebuffer always returns null. -/
def envNoFrame : Env := { envGood with framebuffer := fun _ => none }

/-- Like `envGood`, but the buffer behind the returned pointer has actual
allocated length 0 — a length mismatch against `width * height * 4`. -/
def envShortBuffer : Env := { envGood with fbValidLen := fun _ => 0 }

/-- Like `envGood`, but every create call returns null. -/
def envCreateNull : Env := { envGood with createOk := fun _ => false }

/-- Like `envGood`, but the destroy and step symbols are missing from the
module: symbol resolution is partial. -/
def envMissingSyms : Env := { envGood with symDestroy := false, symStep := false }

/-- Component state right after a successful load. -/
def sLoaded : UPixelOSComponent := LoadFFILibrary envGood initState

/-- Component state after a successful load and a successful boot: instance
0 is live and the display texture is allocated. -/
def sBooted : UPixelOSComponent := (BootOS "PixelOS" envGood sLoaded).1

/-- Like `sBooted` but with a display surface holding byte 7 everywhere, to
make overwrites observable. -/
def sTex7 : UPixelOSComponent :=
  { sBooted with
    OSDisplayTexture := some { width := 1024, height := 768, data := fun _ => 7 } }

/-- Component state after a load with missing destroy/step symbols followed
by a boot: an instance is live although the symbol table is partial. -/
def sPartialBooted : UPixelOSComponent :=
  (BootOS "PixelOS" envMissingSyms (LoadFFILibrary envMissingSyms initState)).1

/-- Events emitted by a boot call contain no module unload. -/
theorem bootOS_noFree (n : String) (env : Env) (s : UPixelOSComponent) :
    noFreeB (BootOS n env s).2 = true := by
  cases hc : s.pixelos_create <;>
    simp [BootOS, hc, noFreeB, eventIsFree]

/-- Events emitted by a texture update contain no module unload. -/
theorem updateTexture_noFree (env : Env) (s : UPixelOSComponent) :
    noFreeB (UpdateTexture env s).2 = true := by
  unfold UpdateTexture
  repeat' split
  all_goals simp [noFreeB, eventIsFree]

/-- Concatenation law for `noFreeB`. -/
theorem noFreeB_append (xs ys : List FFIEvent) :
    noFreeB (xs ++ ys) = (noFreeB xs && noFreeB ys) := by
  simp [noFreeB, List.all_append]

/-- Events emitted by a tick contain no module unload. -/
theorem tickComponent_noFree (env : Env) (s : UPixelOSComponent) :
    noFreeB (TickComponent env s).2 = true := by
  unfold TickComponent
  split
  · dsimp only
    rw [noFreeB_append, Bool.and_eq_true]
    refine ⟨?_, updateTexture_noFree env _⟩
    split <;> simp [noFreeB, eventIsFree]
  · simp [noFreeB]

/-- Events emitted by any single host action contain no module unload. -/
theorem stepAction_noFree (env : Env) (s : UPixelOSComponent) (a : HostAction) :
    noFreeB (stepAction env s a).2 = true := by
  cases a with
  | bootOS n => exact bootOS_noFree n env s
  | tick => exact tickComponent_noFree env s

/-- Events emitted between `BeginPlay` and `EndPlay` contain no module
unload: the module is freed only during teardown. -/
theorem runActions_noFree (env : Env) (s : UPixelOSComponent)
    (acts : List HostAction) :
    noFreeB (runActions env s acts).2 = true := by
  induction acts generalizing s with
  | nil => rfl
  | cons a rest ih =>
    simp [runActions, noFreeB_append, stepAction_noFree, ih]

/-- Prepending an event that is not the module unload preserves
`noDestroyAfterFreeB`. -/
theorem noDestroyAfterFreeB_cons (x : FFIEvent) (l : List FFIEvent)
    (hx : eventIsFree x = false) :
    noDestroyAfterFreeB (x :: l) = noDestroyAfterFreeB l := by
  cases x
  case freeDll => simp [eventIsFree] at hx
  all_goals simp [noDestroyAfterFreeB]

/-- Prepending a trace with no module unload preserves
`noDestroyAfterFreeB`. -/
theorem noDestroyAfterFreeB_append (xs ys : List FFIEvent)
    (hx : noFreeB xs = true) :
    noDestroyAfterFreeB (xs ++ ys) = noDestroyAfterFreeB ys := by
  induction xs with
  | nil => rfl
  | cons x rest ih =>
    simp only [noFreeB, List.all_cons, Bool.and_eq_true] at hx
    rw [List.cons_append, noDestroyAfterFreeB_cons x _ (by simpa using hx.1)]
    exact ih hx.2

/-- Within the teardown itself, no destroy call follows the unload. -/
theorem endPlay_noDestroyAfterFree (s : UPixelOSComponent) :
    noDestroyAfterFreeB (EndPlay s).2 = true := by
  unfold EndPlay UnloadFFILibrary
  cases hF : s.FFIHandle <;> cases hi : s.OSInstance <;>
    cases hd : s.pixelos_destroy <;>
    simp [hF, hi, hd, noDestroyAfterFreeB, eventIsDestroy]

/-- In any complete execution, no destroy call occurs after the module
unload. -/
theorem runComponent_noDestroyAfterFree (env : Env) (acts : List HostAction) :
    noDestroyAfterFreeB (runComponent env acts).2 = true := by
  unfold runComponent
  dsimp only
  rw [noDestroyAfterFreeB_append _ _ (runActions_noFree env _ acts)]
  exact endPlay_noDestroyAfterFree _

/-- `UpdateTexture` never clears the null-call flag. -/
theorem updateTexture_nullCall_mono (env : Env) (s : UPixelOSComponent)
    (h : s.nullCall = true) : (UpdateTexture env s).1.nullCall = true := by
  unfold UpdateTexture
  repeat' split
  all_goals simp [h]

/-- Claim C1, amended: in every complete execution of the component, no
destroy call ever occurs after the module unload; and whenever the teardown
runs with a live tracked instance and a resolved destroy pointer, the
destroy of that instance is the first teardown event — strictly before the
`freeDll` — after which no instance is tracked.  The claim as stated is
refuted by `C1_counterexample`: a second boot orphans the first created
instance, which is still live (created, never destroyed) when the module is
freed. -/
theorem C1_destroy_before_unload :
    (∀ (env : Env) (acts : List HostAction),
        noDestroyAfterFreeB (runComponent env acts).2 = true) ∧
    (∀ (s : UPixelOSComponent) (h : Nat),
        s.OSInstance = some h → s.pixelos_destroy = true →
        (UnloadFFILibrary s).2.head? = some (FFIEvent.destroy h) ∧
        (UnloadFFILibrary s).1.OSInstance = none) := by
  constructor
  · exact runComponent_noDestroyAfterFree
  · intro s h hi hd
    cases hF : s.FFIHandle <;>
      simp [UnloadFFILibrary, hi, hd, hF]

/-- Claim C1, witness: the amended theorem evaluated on a concrete run and
on the booted state. -/
theorem C1_destroy_before_unload_witness :
    noDestroyAfterFreeB (runComponent envGood [HostAction.tick]).2 = true ∧
    ((UnloadFFILibrary sBooted).2.head? = some (FFIEvent.destroy 0) ∧
     (UnloadFFILibrary sBooted).1.OSInstance = none) :=
  ⟨C1_destroy_before_unload.1 envGood [HostAction.tick],
   C1_destroy_before_unload.2 sBooted 0 rfl rfl⟩

/-- Claim C1, counterexample: in the execution that boots twice, the event
trace is create 0, create 1, destroy 1, freeDll — so instance 0, created
from the module and never destroyed, is still live at the moment the module
is unloaded, refuting the claim that no execution unloads the module while
an instance created from it is live. -/
theorem C1_counterexample :
    ((runComponent envGood [HostAction.bootOS "a", HostAction.bootOS "b"]).2 =
      [FFIEvent.create { width := 1024, height := 768 } (some 0),
       FFIEvent.create { width := 1024, height := 768 } (some 1),
       FFIEvent.destroy 1, FFIEvent.freeDll]) ∧
    0 ∈ liveAfter
        ((runComponent envGood
            [HostAction.bootOS "a", HostAction.bootOS "b"]).2.take 3) := by
  decide

/-- Claim C2, amended: after a successful map the loader stores whatever
each export lookup returned, with no null check and no error report (the
function returns nothing): the module handle is retained even when exports
are missing, a VM session can still be created whenever the create export
alone resolved, and a tick on such a session with an unresolved step export
invokes a null function pointer. -/
theorem C2_partial_resolution :
    ∀ (env : Env) (s : UPixelOSComponent),
      env.fileExists = true → env.dllLoadOk = true →
      ((LoadFFILibrary env s).FFIHandle = true ∧
       (LoadFFILibrary env s).pixelos_destroy = env.symDestroy ∧
       (LoadFFILibrary env s).pixelos_step = env.symStep) ∧
      (env.symCreate = true →
        ((BootOS "PixelOS" env (LoadFFILibrary env s)).1.OSInstance).isSome =
          env.createOk s.createCount) ∧
      (∀ (s2 : UPixelOSComponent) (h : Nat),
        s2.OSInstance = some h → s2.pixelos_step = false →
        (TickComponent env s2).1.nullCall = true) := by
  intro env s hf hd
  refine ⟨?_, ?_, ?_⟩
  · simp [LoadFFILibrary, hf, hd]
  · intro hc
    cases hok : env.createOk s.createCount <;>
      simp [LoadFFILibrary, BootOS, hf, hd, hc, hok]
  · intro s2 h hi hstep
    simp only [TickComponent, hi, hstep]
    exact updateTexture_nullCall_mono env _ rfl

/-- Claim C2, witness: the amended theorem evaluated on the environment
whose module lacks the destroy and step exports. -/
theorem C2_partial_resolution_witness :
    ((LoadFFILibrary envMissingSyms initState).FFIHandle = true ∧
     (LoadFFILibrary envMissingSyms initState).pixelos_destroy =
       envMissingSyms.symDestroy ∧
     (LoadFFILibrary envMissingSyms initState).pixelos_step =
       envMissingSyms.symStep) ∧
    ((BootOS "PixelOS" envMissingSyms
        (LoadFFILibrary envMissingSyms initState)).1.OSInstance).isSome =
      envMissingSyms.createOk initState.createCount ∧
    (TickComponent envMissingSyms sPartialBooted).1.nullCall = true :=
  ⟨(C2_partial_resolution envMissingSyms initState rfl rfl).1,
   (C2_partial_resolution envMissingSyms initState rfl rfl).2.1 rfl,
   (C2_partial_resolution envMissingSyms initState rfl rfl).2.2
     sPartialBooted 0 rfl rfl⟩

/-- Claim C2, counterexample: with the destroy and step exports missing,
the load keeps the module handle (the partially-opened module is not
released, and nothing reports an error — the function returns void), and a
session is still created from the partial table: boot returns instance 0.
This refutes the claim that the partial module is released and that no VM
session can be created from a partial table. -/
theorem C2_counterexample :
    (LoadFFILibrary envMissingSyms initState).FFIHandle = true ∧
    (LoadFFILibrary envMissingSyms initState).pixelos_destroy = false ∧
    (BootOS "PixelOS" envMissingSyms
        (LoadFFILibrary envMissingSyms initState)).1.OSInstance = some 0 := by
  decide

/-- Claim C3, evaluation at the failing input: after a successful load, two
boot calls with no intervening shutdown invoke the create entry twice (two
create events), the tracked instance is overwritten with the second handle,
and the full run destroys only instance 1 — instance 0 is leaked.  The
claim (second boot rejected with AlreadyBooted, create not invoked again,
first handle unaffected) describes the spec's stated intent, which the code
contradicts. -/
theorem C3_second_boot_overwrites :
    ((runActions envGood sLoaded
        [HostAction.bootOS "a", HostAction.bootOS "b"]).1.OSInstance = some 1) ∧
    ((runActions envGood sLoaded
        [HostAction.bootOS "a", HostAction.bootOS "b"]).2 =
      [FFIEvent.create { width := 1024, height := 768 } (some 0),
       FFIEvent.create { width := 1024, height := 768 } (some 1)]) ∧
    liveAfter (runActions envGood sLoaded
        [HostAction.bootOS "a", HostAction.bootOS "b"]).2 = [0, 1] := by
  decide

/-- Claim C4, amended: boot receives no configuration (the config is the
hardcoded 1024 by 768, trivially positive, so no validation path exists)
and reports no error of any kind; the create entry is always invoked with
that fixed config when its pointer resolved, and when create returns a null
instance the component simply stores no instance while still allocating the
display texture — no CreateFailed is surfaced. -/
theorem C4_boot_no_validation :
    ∀ (OSName : String) (env : Env) (s : UPixelOSComponent),
      s.pixelos_create = true →
      ((BootOS OSName env s).2 =
        [FFIEvent.create { width := 1024, height := 768 }
          (if env.createOk s.createCount then some s.createCount else none)]) ∧
      (env.createOk s.createCount = false →
        (BootOS OSName env s).1.OSInstance = none ∧
        (BootOS OSName env s).1.OSDisplayTexture = some (newTexture 1024 768)) := by
  intro OSName env s hc
  constructor
  · simp [BootOS, hc]
  · intro hok
    simp [BootOS, hc, hok, newTexture]

/-- Claim C4, witness: the amended theorem evaluated where create returns
null. -/
theorem C4_boot_no_validation_witness :
    ((BootOS "x" envCreateNull sLoaded).2 =
      [FFIEvent.create { width := 1024, height := 768 }
        (if envCreateNull.createOk sLoaded.createCount then
          some sLoaded.createCount else none)]) ∧
    ((BootOS "x" envCreateNull sLoaded).1.OSInstance = none ∧
     (BootOS "x" envCreateNull sLoaded).1.OSDisplayTexture =
       some (newTexture 1024 768)) :=
  ⟨(C4_boot_no_validation "x" envCreateNull sLoaded rfl).1,
   (C4_boot_no_validation "x" envCreateNull sLoaded rfl).2 rfl⟩

/-- Claim C4, counterexample: the create entry reports a null handle, yet
boot does not return CreateFailed — it returns nothing (void), records no
failure in any component field, and still performs the success-path texture
allocation, leaving a half-initialized session (no instance, non-null
texture).  This refutes the claim that boot returns CreateFailed rather
than succeeding. -/
theorem C4_counterexample :
    (BootOS "x" envCreateNull sLoaded).1.OSInstance = none ∧
    ((BootOS "x" envCreateNull sLoaded).1.OSDisplayTexture).isSome = true ∧
    (BootOS "x" envCreateNull sLoaded).2 =
      [FFIEvent.create { width := 1024, height := 768 } none] := by
  decide

/-- Claim C5, amended: the per-tick copy is unconditional on the buffer's
actual allocated length — the C ABI transmits no length, the component
performs no check, and the tick's entire behavior is invariant under the
buffer's allocated length (`fbValidLen`); whenever get_framebuffer returns
a non-null pointer, exactly `width * height * 4` bytes are copied from it
(an overread when the buffer is shorter).  No SizeMismatch detection or
rejection exists. -/
theorem C5_copy_unconditional :
    ∀ (env : Env) (L : Nat → Nat) (s : UPixelOSComponent),
      (TickComponent { env with fbValidLen := L } s = TickComponent env s) ∧
      (∀ (h : Nat) (tex : Texture) (buf : Nat → Nat),
        s.OSInstance = some h → s.OSDisplayTexture = some tex →
        s.pixelos_step = true → s.pixelos_get_framebuffer = true →
        env.framebuffer (s.stepCount + 1) = some buf →
        (TickComponent env s).1.OSDisplayTexture =
          some (copyFramebuffer tex buf)) := by
  intro env L s
  constructor
  · rfl
  · intro h tex buf hi ht hs hg hf
    simp [TickComponent, UpdateTexture, hi, ht, hs, hg, hf]

/-- Claim C5, witness: the amended theorem evaluated on the booted state,
with a zero-length declared buffer for the invariance part. -/
theorem C5_copy_unconditional_witness :
    (TickComponent { envGood with fbValidLen := fun _ => 0 } sBooted =
      TickComponent envGood sBooted) ∧
    (TickComponent envGood sBooted).1.OSDisplayTexture =
      some (copyFramebuffer (newTexture 1024 768) (fun _ => 42)) :=
  ⟨(C5_copy_unconditional envGood (fun _ => 0) sBooted).1,
   (C5_copy_unconditional envGood (fun _ => 0) sBooted).2 0
     (newTexture 1024 768) (fun _ => 42) rfl rfl rfl rfl rfl⟩

/-- Claim C5, counterexample: the buffer's actual allocated length is 0,
which mismatches 1024 * 768 * 4, yet the copy is not rejected: the surface
byte at offset 0 changes from 7 to 42.  This refutes the claim that the
bytes are copied only when the returned buffer length equals
`width * height * 4` and that a mismatch rejects the copy entirely. -/
theorem C5_counterexample :
    envShortBuffer.fbValidLen 1 = 0 ∧
    (0 ≠ 1024 * 768 * 4) ∧
    (sTex7.OSDisplayTexture.map fun t => t.data 0) = some 7 ∧
    ((TickComponent envShortBuffer sTex7).1.OSDisplayTexture.map
        fun t => t.data 0) = some 42 := by
  decide

/-- Claim C6, amended: when get_framebuffer returns null on a booted
session, the display surface is left completely untouched — the tick's
whole effect is the ghost step counter, every component field including the
texture is unchanged — but the tick does not fail with FrameUnavailable or
anything else: the source function returns void, no field records the
condition, and the copy is silently skipped. -/
theorem C6_null_frame_silent :
    ∀ (env : Env) (s : UPixelOSComponent) (h : Nat) (tex : Texture),
      s.OSInstance = some h → s.OSDisplayTexture = some tex →
      s.pixelos_step = true → s.pixelos_get_framebuffer = true →
      env.framebuffer (s.stepCount + 1) = none →
      TickComponent env s =
        ({ s with stepCount := s.stepCount + 1 },
         [FFIEvent.step h, FFIEvent.getFramebuffer h false]) := by
  intro env s h tex hi ht hs hg hf
  simp [TickComponent, UpdateTexture, hi, ht, hs, hg, hf]

/-- Claim C6, witness: the amended theorem evaluated on the booted state in
the environment whose get_framebuffer always returns null. -/
theorem C6_null_frame_silent_witness :
    TickComponent envNoFrame sBooted =
      ({ sBooted with stepCount := sBooted.stepCount + 1 },
       [FFIEvent.step 0, FFIEvent.getFramebuffer 0 false]) :=
  C6_null_frame_silent envNoFrame sBooted 0 (newTexture 1024 768)
    rfl rfl rfl rfl rfl

/-- Claim C6, counterexample: on a booted session whose get_framebuffer
returns null, the tick leaves the texture — and in fact every component
field other than the ghost step counter — exactly as before, and returns
nothing: no FrameUnavailable failure exists anywhere in the caller-visible
outcome.  This refutes the claim that such a tick fails with
FrameUnavailable (the surface-untouched half of the claim is true). -/
theorem C6_counterexample :
    (TickComponent envNoFrame sBooted).1.OSDisplayTexture =
      sBooted.OSDisplayTexture ∧
    (TickComponent envNoFrame sBooted).1 = { sBooted with stepCount := 1 } :=
  ⟨rfl, rfl⟩

/-- Claim C7, amended: a tick with no live instance never invokes the step
entry point, but it is a silently swallowed no-op: the state is unchanged,
no FFI call is made, and no caller-visible error exists (the source returns
void).  The spec-modelled Input Forwarder (the repository has no caller of
send_key) returns NoActiveSession with no live handle and never invokes the
entry point. -/
theorem C7_inactive_fail_fast :
    (∀ (env : Env) (s : UPixelOSComponent),
        s.OSInstance = none → TickComponent env s = (s, [])) ∧
    (∀ (keycode modifiers : Nat),
        sendKeySpec none keycode modifiers =
          Except.error InputError.NoActiveSession) := by
  constructor
  · intro env s hi
    simp [TickComponent, hi]
  · intro k m
    rfl

/-- Claim C7, witness: the amended theorem evaluated on the freshly
constructed component and a concrete key event. -/
theorem C7_inactive_fail_fast_witness :
    TickComponent envGood initState = (initState, []) ∧
    sendKeySpec none 3 5 = Except.error InputError.NoActiveSession :=
  ⟨C7_inactive_fail_fast.1 envGood initState rfl,
   C7_inactive_fail_fast.2 3 5⟩

/-- Claim C7, counterexample: a tick in the Loaded-but-not-Booted state
changes nothing, emits no FFI call, and returns nothing — it is exactly a
silently swallowed no-op, refuting the claim that the operation fails fast
with a specific caller-visible error such as NoActiveSession and is never a
silent no-op.  (The never-invokes-step half of the claim is true.) -/
theorem C7_counterexample :
    TickComponent envGood sLoaded = (sLoaded, []) := rfl

/-- Claim C8: a shutdown (the teardown path `UnloadFFILibrary`, the code's
only shutdown) with a live instance and a resolved destroy pointer emits
exactly one destroy call and leaves no live handle; a shutdown with no live
handle — including after a failed boot — performs no destroy call; and a
second consecutive shutdown is a complete no-op (state unchanged, no
events): shutdown is idempotent. -/
theorem C8_shutdown_idempotent :
    (∀ (s : UPixelOSComponent) (h : Nat),
        s.OSInstance = some h → s.pixelos_destroy = true →
        ((UnloadFFILibrary s).2.countP fun e => eventIsDestroy e) = 1 ∧
        (UnloadFFILibrary s).1.OSInstance = none) ∧
    (∀ (s : UPixelOSComponent),
        s.OSInstance = none →
        ((UnloadFFILibrary s).2.all fun e => !eventIsDestroy e) = true ∧
        (UnloadFFILibrary s).1.OSInstance = none) ∧
    (∀ (s : UPixelOSComponent),
        UnloadFFILibrary (UnloadFFILibrary s).1 = ((UnloadFFILibrary s).1, [])) := by
  refine ⟨?_, ?_, ?_⟩
  · intro s h hi hd
    cases hF : s.FFIHandle <;>
      simp [UnloadFFILibrary, hi, hd, hF, List.countP, List.countP.go,
            eventIsDestroy]
  · intro s hi
    cases hF : s.FFIHandle <;>
      simp [UnloadFFILibrary, hi, hF, eventIsDestroy]
  · intro s
    have h1 : (UnloadFFILibrary s).1.OSInstance = none := by
      cases hi : s.OSInstance <;> cases hF : s.FFIHandle <;>
        cases hd : s.pixelos_destroy <;>
        simp [UnloadFFILibrary, hi, hF, hd]
    have h2 : (UnloadFFILibrary s).1.FFIHandle = false := by
      cases hi : s.OSInstance <;> cases hF : s.FFIHandle <;>
        cases hd : s.pixelos_destroy <;>
        simp [UnloadFFILibrary, hi, hF, hd]
    have key : ∀ (t : UPixelOSComponent), t.OSInstance = none →
        t.FFIHandle = false → UnloadFFILibrary t = (t, []) := by
      intro t ht1 ht2
      simp [UnloadFFILibrary, ht1, ht2]
    exact key (UnloadFFILibrary s).1 h1 h2

/-- Claim C8, witness: the theorem evaluated on the booted state (one
destroy) and the loaded-but-unbooted state (no destroy), plus the
idempotence of a second shutdown after the booted one. -/
theorem C8_shutdown_idempotent_witness :
    (((UnloadFFILibrary sBooted).2.countP fun e => eventIsDestroy e) = 1 ∧
     (UnloadFFILibrary sBooted).1.OSInstance = none) ∧
    (((UnloadFFILibrary sLoaded).2.all fun e => !eventIsDestroy e) = true ∧
     (UnloadFFILibrary sLoaded).1.OSInstance = none) ∧
    UnloadFFILibrary (UnloadFFILibrary sBooted).1 =
      ((UnloadFFILibrary sBooted).1, []) :=
  ⟨C8_shutdown_idempotent.1 sBooted 0 rfl rfl,
   C8_shutdown_idempotent.2.1 sLoaded rfl,
   C8_shutdown_idempotent.2.2 sBooted⟩

/-- Claim C9: the OS-name parameter of `BootOS` has no effect whatsoever:
for any two names, the resulting component state and the emitted FFI events
(in particular the create call and its configuration) are identical, so the
name is not transmitted to the VM creation call. -/
theorem C9_boot_name_irrelevant :
    ∀ (name1 name2 : String) (env : Env) (s : UPixelOSComponent),
      BootOS name1 env s = BootOS name2 env s :=
  fun _ _ _ _ => rfl

/-- Claim C10: whenever the create pointer resolved, boot assigns a
non-null 1024 by 768 display texture unconditionally — also when create
returns a null instance; consequently, after the host actor's begin-play
with a failing create, the component holds a non-null texture with a null
instance, and the actor's material binding (which branches on the texture's
presence) still proceeds. -/
theorem C10_texture_despite_failed_create :
    (∀ (OSName : String) (env : Env) (s : UPixelOSComponent),
        s.pixelos_create = true →
        (BootOS OSName env s).1.OSDisplayTexture = some (newTexture 1024 768)) ∧
    (∀ (env : Env),
        env.fileExists = true → env.dllLoadOk = true →
        env.symCreate = true → env.createOk 0 = false →
        (AOSComputer_BeginPlay env).1.comp.OSInstance = none ∧
        ((AOSComputer_BeginPlay env).1.comp.OSDisplayTexture).isSome = true ∧
        (AOSComputer_BeginPlay env).1.materialBound = true) := by
  constructor
  · intro OSName env s hc
    simp [BootOS, hc, newTexture]
  · intro env h1 h2 h3 h4
    simp [AOSComputer_BeginPlay, BeginPlay, LoadFFILibrary, BootOS, initState,
          h1, h2, h3, h4]

/-- Claim C10, witness: the theorem evaluated on the all-good environment
for the first part and the failing-create environment for the second. -/
theorem C10_texture_despite_failed_create_witness :
    (BootOS "x" envGood sLoaded).1.OSDisplayTexture =
      some (newTexture 1024 768) ∧
    ((AOSComputer_BeginPlay envCreateNull).1.comp.OSInstance = none ∧
     ((AOSComputer_BeginPlay envCreateNull).1.comp.OSDisplayTexture).isSome =
       true ∧
     (AOSComputer_BeginPlay envCreateNull).1.materialBound = true) :=
  ⟨C10_texture_despite_failed_create.1 "x" envGood sLoaded rfl,
   C10_texture_despite_failed_create.2 envCreateNull rfl rfl rfl rfl⟩

end PixelOS
